import Mathlib

/-!
# Text editor (C with GTK): a shallow embedding

The development models `src/text_editor.c` (file handling, the modified flag,
the save prompt, quitting) and the snippets of `src/ex_features.c` (undo/redo,
search, status bar, auto-save).

Conventions.

* Text is a list of bytes, the `gchar *` the program hands to and receives from
  the toolkit.  A C string stops at its first zero byte (`c_str`).
* The toolkit (GTK/GLib) and the C library are not part of the repository: the
  few calls the program makes are modelled after their documented behaviour, each
  in a definition of the same name.
* Everything the user or the operating system decides during one callback (the
  button pressed in a dialog, the file chosen, whether a read or write succeeds)
  is an explicit input, `Inputs`.
* Positions in the buffer (the marks `insert` and `selection_bound`) are indices
  into the byte list.
* Window titles, scrolling and styling are presentation only and are left out.
* `fseek`/`ftell` are taken to succeed: the program never tests their result,
  and with a failed `ftell` its behaviour is undefined in C.
* Streams are POSIX streams: the modes "r" and "w" move bytes unchanged.
* A line of the buffer ends where the toolkit ends a paragraph: at a newline,
  at a carriage return (together with the newline that follows it, if one
  does) and at U+2029.  The lines are those of a text put into the buffer in
  one piece, as `on_open_file` does.  Characters are counted by their first
  bytes, and an iterator stands at the first byte of a character.
* The toolkit search is modelled by its documented contract (the first
  occurrence of the string at or after the iterator); for the empty string,
  on which the documentation is silent, by what its implementation does.
-/

namespace TextEditorGtk

/-! ## Data model -/

/-- One `gchar`. -/
abbrev Byte := Fin 256

/-- A file name as chosen in a file chooser. -/
abbrev Filename := String

/-- The bytes of a C string: everything before the first zero byte. -/
def c_str (s : List Byte) : List Byte :=
  s.takeWhile (fun b => b != 0)

/-- Scan of UTF-8 text, byte by byte: `pending` continuation bytes are still
due for the sequence under way, and the next of them has to lie in `lo..hi`
(the second byte of a sequence is the one that rules out overlong forms,
surrogates and values above U+10FFFF). -/
def utf8_scan : List Byte → Nat → Nat → Nat → Bool
  | [], pending, _, _ => pending == 0
  | b :: rest, 0, _, _ =>
    if b.val = 0 then false
    else if b.val < 0x80 then utf8_scan rest 0 0x80 0xBF
    else if b.val < 0xC2 then false
    else if b.val < 0xE0 then utf8_scan rest 1 0x80 0xBF
    else if b.val = 0xE0 then utf8_scan rest 2 0xA0 0xBF
    else if b.val = 0xED then utf8_scan rest 2 0x80 0x9F
    else if b.val < 0xF0 then utf8_scan rest 2 0x80 0xBF
    else if b.val = 0xF0 then utf8_scan rest 3 0x90 0xBF
    else if b.val < 0xF4 then utf8_scan rest 3 0x80 0xBF
    else if b.val = 0xF4 then utf8_scan rest 3 0x80 0x8F
    else false
  | b :: rest, pending + 1, lo, hi =>
    if lo ≤ b.val ∧ b.val ≤ hi then utf8_scan rest pending 0x80 0xBF else false

/-- Validation of UTF-8 text as done by GLib (`g_utf8_validate` with an explicit
length): well-formed sequences only, no overlong forms, no surrogates, nothing
above U+10FFFF, and no zero byte. -/
def g_utf8_validate (t : List Byte) : Bool :=
  utf8_scan t 0 0x80 0xBF

/-- The toolkit text buffer (`GtkTextBuffer`): its text, the two selection marks
and the undo/redo history kept by the toolkit (earlier and later texts, most
recent first). -/
structure GtkTextBuffer where
  text : List Byte
  insert : Nat
  selection_bound : Nat
  undo_stack : List (List Byte)
  redo_stack : List (List Byte)
deriving DecidableEq, Repr

/-- The application structure `TextEditor` (widgets left out). -/
structure TextEditor where
  text_buffer : GtkTextBuffer
  current_filename : Option Filename
  modified : Bool
deriving DecidableEq, Repr

/-- Dialogs the program runs; the log of them is what the user gets to see. -/
inductive Dialog
  | open_chooser
  | save_chooser
  | save_changes_prompt
  | open_failed_error (filename : Filename)
  | save_failed_error (filename : Filename)
deriving DecidableEq, Repr

/-- Response ids of `gtk_dialog_run`. -/
inductive GtkResponse
  | accept
  | cancel
  | yes
  | no
  | delete_event
deriving DecidableEq, Repr

/-- Files on disk. -/
abbrev FileSystem := Filename → Option (List Byte)

/-- The state a callback runs in: the editor, the files on disk and the dialogs
shown so far (most recent first); then the message stack of the status bar
(top first), whether `cleanup_editor` has freed the editor, and whether
`gtk_main_quit` was called. -/
structure World where
  editor : TextEditor
  files : FileSystem
  dialogs : List Dialog
  status_bar : List String := []
  freed : Bool := false
  main_quit : Bool := false

/-- How the operating system treats one write of a file through
`fopen(.., "w")`, `fputs`, `fclose`. -/
inductive WriteOutcome
  /-- The call to `fopen` returns NULL. -/
  | open_failed
  /-- The call to `fputs` returns EOF; `written` bytes had reached the file. -/
  | fputs_failed (written : Nat)
  /-- The text went to the stdio buffer and `fputs` reported no error, the flush
  at `fclose` failed after `written` bytes. -/
  | fclose_failed (written : Nat)
  /-- Every byte reached the file. -/
  | ok
deriving DecidableEq, Repr

/-- How the operating system treats one read of a file through
`fopen(.., "r")`, `malloc`, `fread`. -/
structure ReadOutcome where
  /-- Whether `fopen` returns a stream (it never does for a missing file). -/
  fopen_ok : Bool
  /-- Whether `malloc` returns a block. -/
  malloc_ok : Bool
  /-- Number of bytes `fread` delivers, capped by the file size. -/
  fread_count : Nat
  /-- What the block returned by `malloc` held before the read. -/
  heap : Nat → Byte

/-- One run of a file chooser dialog. -/
structure FileChoice where
  response : GtkResponse
  filename : Filename
deriving DecidableEq, Repr

/-- Everything the user and the operating system decide during one callback.
Each dialog and each file operation happens at most once per callback. -/
structure Inputs where
  /-- Answer to "Save changes before closing?". -/
  prompt : GtkResponse
  /-- Run of the "Save File" chooser. -/
  save_choice : FileChoice
  /-- Fate of the write. -/
  write : WriteOutcome
  /-- Run of the "Open File" chooser. -/
  open_choice : FileChoice
  /-- Fate of the read. -/
  read : ReadOutcome

/-! ## Toolkit and C library calls -/

/-- The call `gtk_text_buffer_get_text` over the bounds of the buffer. -/
def gtk_text_buffer_get_text (b : GtkTextBuffer) : List Byte :=
  b.text

/-- The call `gtk_text_buffer_set_text (buffer, s, -1)`: the current contents are
deleted, then the C string `s` is inserted, which the toolkit refuses when it is
not valid UTF-8.  Both marks end up after the inserted text and the history is
dropped.  The second component tells whether the "changed" signal was emitted
(by deleting a non-empty text or by inserting one). -/
def gtk_text_buffer_set_text (b : GtkTextBuffer) (s : List Byte) : GtkTextBuffer × Bool :=
  let t := c_str s
  let inserted := if g_utf8_validate t then t else []
  ({ text := inserted, insert := inserted.length, selection_bound := inserted.length,
     undo_stack := [], redo_stack := [] },
   !b.text.isEmpty || !inserted.isEmpty)

/-- The call `gtk_text_buffer_select_range (buffer, ins, bound)`: the mark
`insert` goes to `ins`, the mark `selection_bound` to `bound`. -/
def gtk_text_buffer_select_range (b : GtkTextBuffer) (ins bound : Nat) : GtkTextBuffer :=
  { b with insert := ins, selection_bound := bound }

/-- Offset of the first occurrence of the non-empty `str` in a text, whose
first byte has offset `off` (the scan of `strstr`). -/
def search_from (str : List Byte) : List Byte → Nat → Option Nat
  | [], _ => none
  | c :: cs, off =>
    if str.isPrefixOf (c :: cs) then some off else search_from str cs (off + 1)

/-- The call `gtk_text_iter_forward_search (iter, str, GTK_TEXT_SEARCH_TEXT_ONLY,
&match_start, &match_end, limit)` on a buffer text: `none` when it returns FALSE,
the bounds of the match otherwise.  Nothing is searched when `iter` is at or
past `limit`; an empty `str` is reported one character after `iter` when the
iterator can move there; otherwise the first occurrence at or after `iter` is
the match, provided it ends by `limit`. -/
def gtk_text_iter_forward_search (text : List Byte) (iter : Nat) (str : List Byte)
    (limit : Option Nat) : Option (Nat × Nat) :=
  let str := c_str str
  if limit.any (fun l => decide (l ≤ iter)) then none
  else if str.isEmpty then
    if iter + 1 < text.length && !(limit.any (fun l => decide (l = iter + 1))) then
      some (iter + 1, iter + 1)
    else none
  else
    match search_from str (text.drop iter) iter with
    | some s =>
      if limit.all (fun l => decide (s + str.length ≤ l)) then some (s, s + str.length)
      else none
    | none => none

/-- The call `gtk_text_buffer_get_can_undo`. -/
def gtk_text_buffer_get_can_undo (b : GtkTextBuffer) : Bool :=
  !b.undo_stack.isEmpty

/-- The call `gtk_text_buffer_get_can_redo`. -/
def gtk_text_buffer_get_can_redo (b : GtkTextBuffer) : Bool :=
  !b.redo_stack.isEmpty

/-- The call `gtk_text_buffer_undo`: the most recent earlier text comes back and
the current one moves to the redo history; the marks stay within the text.  The
second component tells whether "changed" was emitted. -/
def gtk_text_buffer_undo (b : GtkTextBuffer) : GtkTextBuffer × Bool :=
  match b.undo_stack with
  | [] => (b, false)
  | prev :: rest =>
    ({ text := prev, insert := min b.insert prev.length,
       selection_bound := min b.selection_bound prev.length,
       undo_stack := rest, redo_stack := b.text :: b.redo_stack }, true)

/-- The call `gtk_text_buffer_redo`, the mirror image of undo. -/
def gtk_text_buffer_redo (b : GtkTextBuffer) : GtkTextBuffer × Bool :=
  match b.redo_stack with
  | [] => (b, false)
  | next :: rest =>
    ({ text := next, insert := min b.insert next.length,
       selection_bound := min b.selection_bound next.length,
       undo_stack := b.text :: b.undo_stack, redo_stack := rest }, true)

/-- An insertion typed into the text view: `s` goes in at `pos`, the earlier text
is remembered for undo, the redo history is dropped.  The second component
tells whether "changed" was emitted. -/
def gtk_text_buffer_insert (b : GtkTextBuffer) (pos : Nat) (s : List Byte) :
    GtkTextBuffer × Bool :=
  let t := c_str s
  if t.isEmpty || !g_utf8_validate t then (b, false)
  else
    ({ text := b.text.take pos ++ t ++ b.text.drop pos,
       insert := min pos b.text.length + t.length,
       selection_bound := min pos b.text.length + t.length,
       undo_stack := b.text :: b.undo_stack, redo_stack := [] }, true)

/-- A file with new contents. -/
def write_file (files : FileSystem) (f : Filename) (bytes : List Byte) : FileSystem :=
  fun g => if g = f then some bytes else files g

/-- Whether `fopen (filename, "w")` returns a stream. -/
def WriteOutcome.fopen_ok : WriteOutcome → Bool
  | .open_failed => false
  | _ => true

/-- Whether `fputs` returns something other than EOF. -/
def WriteOutcome.fputs_ok : WriteOutcome → Bool
  | .open_failed => false
  | .fputs_failed _ => false
  | .fclose_failed _ => true
  | .ok => true

/-- What the file holds once the stream is closed, when `text` was given to
`fputs` (which writes a C string). -/
def WriteOutcome.on_disk (out : WriteOutcome) (text : List Byte) : List Byte :=
  match out with
  | .open_failed => []
  | .fputs_failed n => (c_str text).take n
  | .fclose_failed n => (c_str text).take n
  | .ok => c_str text

/-- The call `fopen (filename, "r")`: the bytes of the file behind the stream, or
`none` for NULL. -/
def fopen_read (r : ReadOutcome) (files : FileSystem) (filename : Filename) :
    Option (List Byte) :=
  if r.fopen_ok then files filename else none

/-- The block `content` of `file_size + 1` bytes after
`fread (content, 1, file_size, file)` and `content[file_size] = 0`: the bytes
delivered come from the file, the others are what the block held. -/
def fread_content (bytes : List Byte) (count : Nat) (heap : Nat → Byte) : List Byte :=
  bytes.take count ++ ((List.range bytes.length).drop count).map heap ++ [0]

/-- Whether a byte is the first byte of a character of UTF-8 text, that is, no
continuation byte `10xxxxxx`. -/
def utf8_char_start (b : Byte) : Bool :=
  !(decide (0x80 ≤ b.val) && decide (b.val ≤ 0xBF))

/-- Whether the character that begins with the byte `b` and is followed by the
bytes `rest` ends a line: a newline does, a carriage return does unless a
newline follows (the pair is one delimiter, ended by its newline), and so
does U+2029 (the bytes E2 80 A9). -/
def ends_line (b : Byte) (rest : List Byte) : Bool :=
  b == 10 || (b == 13 && rest.head? != some 10)
    || (b == 0xE2 && rest.take 2 == [0x80, 0xA9])

/-- One step of an iterator over the byte `b`, which `rest` follows, for its line
number and its character offset in the line: the end of a line starts the next
line at offset 0, any other character adds one to the offset. -/
def iter_forward (pos : Nat × Nat) (b : Byte) (rest : List Byte) : Nat × Nat :=
  if ends_line b rest then (pos.1 + 1, 0)
  else if utf8_char_start b then (pos.1, pos.2 + 1)
  else pos

/-- Walk of an iterator over the first `n` bytes of a text, from the position
`pos` (line number, character offset in the line). -/
def iter_walk : List Byte → Nat → Nat × Nat → Nat × Nat
  | [], _, pos => pos
  | _ :: _, 0, pos => pos
  | b :: rest, n + 1, pos => iter_walk rest n (iter_forward pos b rest)

/-- Line number and character offset in the line of the iterator at byte index
`iter`, found by walking there from the start of the buffer. -/
def iter_position (text : List Byte) (iter : Nat) : Nat × Nat :=
  iter_walk text iter (0, 0)

/-- The call `gtk_text_iter_get_line`: lines are numbered from 0. -/
def gtk_text_iter_get_line (text : List Byte) (iter : Nat) : Nat :=
  (iter_position text iter).1

/-- The call `gtk_text_iter_get_line_offset`: the first character of a line has
offset 0. -/
def gtk_text_iter_get_line_offset (text : List Byte) (iter : Nat) : Nat :=
  (iter_position text iter).2

/-- The call `gtk_statusbar_pop`: the top message goes, if there is one. -/
def gtk_statusbar_pop (messages : List String) : List String :=
  messages.tail

/-- The call `gtk_statusbar_push`. -/
def gtk_statusbar_push (messages : List String) (text : String) : List String :=
  text :: messages

/-- The call `g_path_get_basename` with the separator `/`: the last component of
the file name, trailing separators left aside; "." for the empty name and "/"
for a name of separators only. -/
def g_path_get_basename (file_name : String) : String :=
  let cs := file_name.toList
  if cs.isEmpty then "."
  else
    let trimmed := (cs.reverse.dropWhile (fun c => c == '/')).reverse
    if trimmed.isEmpty then "/"
    else String.mk (trimmed.reverse.takeWhile (fun c => c != '/')).reverse

/-! ## The program: `text_editor.c` -/

/-- Text changed callback. -/
def on_text_changed (e : TextEditor) : TextEditor :=
  { e with modified := true }

/-- Delivery of the "changed" signal of the buffer to its one handler. -/
def emit_changed (e : TextEditor) (emitted : Bool) : TextEditor :=
  if emitted then on_text_changed e else e

/-- Internal save file function. -/
def save_file_internal (out : WriteOutcome) (w : World) (filename : Filename) :
    Bool × World :=
  if out.fopen_ok then
    let text := gtk_text_buffer_get_text w.editor.text_buffer
    let files := write_file w.files filename (out.on_disk text)
    if out.fputs_ok then
      (true, { w with editor := { w.editor with modified := false }, files := files })
    else
      (false, { w with files := files })
  else
    (false, { w with dialogs := Dialog.save_failed_error filename :: w.dialogs })

/-- Save as file callback. -/
def on_save_as_file (inp : Inputs) (w : World) : World :=
  let w := { w with dialogs := Dialog.save_chooser :: w.dialogs }
  if inp.save_choice.response = GtkResponse.accept then
    let filename := inp.save_choice.filename
    let r := save_file_internal inp.write w filename
    if r.1 then
      { r.2 with editor := { r.2.editor with current_filename := some filename } }
    else r.2
  else w

/-- Save file callback. -/
def on_save_file (inp : Inputs) (w : World) : World :=
  match w.editor.current_filename with
  | some filename => (save_file_internal inp.write w filename).2
  | none => on_save_as_file inp w

/-- Prompt to save changes. -/
def prompt_save_changes (inp : Inputs) (w : World) : Bool × World :=
  let w := { w with dialogs := Dialog.save_changes_prompt :: w.dialogs }
  if inp.prompt = GtkResponse.yes then
    (true, on_save_file inp w)
  else if inp.prompt = GtkResponse.no then
    (true, w)
  else
    (false, w)

/-- The test `editor->modified && !prompt_save_changes (editor)` that opens
`on_new_file`, `on_open_file`, `on_quit` and `on_delete_event`: its value (TRUE
makes the callback return at once) and the state it leaves, the prompt being
run only for a modified document. -/
def unsaved_changes_guard (inp : Inputs) (w : World) : Bool × World :=
  if w.editor.modified then
    let r := prompt_save_changes inp w
    (!r.1, r.2)
  else (false, w)

/-- New file callback. -/
def on_new_file (inp : Inputs) (w : World) : World :=
  let g := unsaved_changes_guard inp w
  if g.1 then g.2
  else
    let w := g.2
    let r := gtk_text_buffer_set_text w.editor.text_buffer []
    let e := emit_changed { w.editor with text_buffer := r.1 } r.2
    { w with editor := { e with current_filename := none, modified := false } }

/-- Open file callback. -/
def on_open_file (inp : Inputs) (w : World) : World :=
  let g := unsaved_changes_guard inp w
  if g.1 then g.2
  else
    let w := g.2
    let w := { w with dialogs := Dialog.open_chooser :: w.dialogs }
    if inp.open_choice.response = GtkResponse.accept then
      let filename := inp.open_choice.filename
      match fopen_read inp.read w.files filename with
      | some bytes =>
        if inp.read.malloc_ok then
          let content := fread_content bytes inp.read.fread_count inp.read.heap
          let r := gtk_text_buffer_set_text w.editor.text_buffer content
          let e := emit_changed { w.editor with text_buffer := r.1 } r.2
          { w with editor := { e with current_filename := some filename, modified := false } }
        else w
      | none =>
        { w with dialogs := Dialog.open_failed_error filename :: w.dialogs }
    else w

/-- Clean up editor resources: the file name is released, then the editor block
itself is freed. -/
def cleanup_editor (w : World) : World :=
  { w with editor := { w.editor with current_filename := none }, freed := true }

/-- Quit callback. -/
def on_quit (inp : Inputs) (w : World) : World :=
  let g := unsaved_changes_guard inp w
  if g.1 then g.2
  else
    let w := cleanup_editor g.2
    { w with main_quit := true }

/-- Window delete event callback: TRUE keeps the window, FALSE lets it close. -/
def on_delete_event (inp : Inputs) (w : World) : Bool × World :=
  let g := unsaved_changes_guard inp w
  if g.1 then (true, g.2)
  else (false, cleanup_editor g.2)

/-- A keystroke in the text view: the toolkit inserts the text and the "changed"
handler runs. -/
def text_view_insert (w : World) (pos : Nat) (s : List Byte) : World :=
  let r := gtk_text_buffer_insert w.editor.text_buffer pos s
  { w with editor := emit_changed { w.editor with text_buffer := r.1 } r.2 }

/-! ## The program: `ex_features.c` -/

/-- Undo callback. -/
def on_undo (w : World) : World :=
  if gtk_text_buffer_get_can_undo w.editor.text_buffer then
    let r := gtk_text_buffer_undo w.editor.text_buffer
    { w with editor := emit_changed { w.editor with text_buffer := r.1 } r.2 }
  else w

/-- Redo callback. -/
def on_redo (w : World) : World :=
  if gtk_text_buffer_get_can_redo w.editor.text_buffer then
    let r := gtk_text_buffer_redo w.editor.text_buffer
    { w with editor := emit_changed { w.editor with text_buffer := r.1 } r.2 }
  else w

/-- Find next occurrence. -/
def find_next (e : TextEditor) (search_text : List Byte) : Bool × TextEditor :=
  let start := e.text_buffer.insert
  let end_iter := e.text_buffer.text.length
  match gtk_text_iter_forward_search e.text_buffer.text start search_text (some end_iter) with
  | some m =>
    (true, { e with text_buffer := gtk_text_buffer_select_range e.text_buffer m.1 m.2 })
  | none =>
    match gtk_text_iter_forward_search e.text_buffer.text 0 search_text none with
    | some m =>
      (true, { e with text_buffer := gtk_text_buffer_select_range e.text_buffer m.1 m.2 })
    | none => (false, e)

/-- Update status bar with cursor position.  The two numbers are `gint`; a
buffer holds fewer than `2^31` characters, so the additions do not wrap. -/
def update_status_bar (w : World) : World :=
  let text := w.editor.text_buffer.text
  let iter := w.editor.text_buffer.insert
  let line := gtk_text_iter_get_line text iter + 1
  let column := gtk_text_iter_get_line_offset text iter + 1
  let status_text := "Line " ++ toString line ++ ", Column " ++ toString column
  { w with status_bar := gtk_statusbar_push (gtk_statusbar_pop w.status_bar) status_text }

/-- Auto-save timer callback; `out` is the fate of the write, should one be
made.  TRUE keeps the timer running. -/
def auto_save_callback (out : WriteOutcome) (w : World) : Bool × World :=
  if w.editor.modified then
    match w.editor.current_filename with
    | some filename =>
      let w := (save_file_internal out w filename).2
      let status := "Auto-saved to " ++ g_path_get_basename filename
      (true, { w with status_bar := gtk_statusbar_push w.status_bar status })
    | none => (true, w)
  else (true, w)

/-! ## Vocabulary of the statements -/

/-- The range `[i, i + |q|)` lies within the text and spells `q`. -/
def occurs_at (text q : List Byte) (i : Nat) : Prop :=
  i + q.length ≤ text.length ∧ (text.drop i).take q.length = q

instance occurs_at_decidable (text q : List Byte) (i : Nat) : Decidable (occurs_at text q i) := by
  unfold occurs_at
  infer_instance

/-- The first occurrence of `q` in `text` at or after `start` is at `s`. -/
def first_occurrence_from (text q : List Byte) (start s : Nat) : Prop :=
  start ≤ s ∧ occurs_at text q s ∧ ∀ j, start ≤ j → j < s → ¬ occurs_at text q j

/-- Whether `on_open_file` reaches the statements that replace the buffer text:
the save prompt (if any) was not cancelled, the chooser was accepted, `fopen`
returned a stream and `malloc` a block. -/
def load_succeeds (inp : Inputs) (w : World) : Bool :=
  !(unsaved_changes_guard inp w).1
    && decide (inp.open_choice.response = GtkResponse.accept)
    && (fopen_read inp.read (unsaved_changes_guard inp w).2.files
          inp.open_choice.filename).isSome
    && inp.read.malloc_ok

/-- Number of newline bytes before the cursor. -/
def newlines_before (text : List Byte) (cursor : Nat) : Nat :=
  (text.take cursor).count 10

/-- The part of a text that follows its last newline (the whole text if it has
none). -/
def after_last_newline (s : List Byte) : List Byte :=
  (s.reverse.takeWhile (fun b => b != 10)).reverse

/-- The bytes between the start of the line of the cursor and the cursor. -/
def line_before_cursor (text : List Byte) (cursor : Nat) : List Byte :=
  after_last_newline (text.take cursor)

/-- Number of characters of a piece of UTF-8 text: its bytes that are not
continuation bytes. -/
def characters (s : List Byte) : Nat :=
  s.countP (fun b => b.val < 0x80 || 0xC0 ≤ b.val)

/-- A step over the byte `b` that knows the newline as the only line end. -/
def newline_forward (pos : Nat × Nat) (b : Byte) : Nat × Nat :=
  if b = 10 then (pos.1 + 1, 0)
  else if utf8_char_start b then (pos.1, pos.2 + 1)
  else pos

/-- A text whose only line ends are newlines: it holds no carriage return and
no U+2029 (the bytes E2 80 A9). -/
def only_newline_line_ends (text : List Byte) : Prop :=
  (13 : Byte) ∉ text ∧ text.tails.all (fun t => t.take 3 != [0xE2, 0x80, 0xA9]) = true

instance only_newline_line_ends_decidable (text : List Byte) :
    Decidable (only_newline_line_ends text) := by
  unfold only_newline_line_ends
  infer_instance

/-! ## Sample states and inputs -/

/-- A buffer holding `text` with both marks at `cursor` and no history. -/
def buffer_of (text : List Byte) (cursor : Nat) : GtkTextBuffer :=
  { text := text, insert := cursor, selection_bound := cursor, undo_stack := [], redo_stack := [] }

/-- A disk holding the one file `f`. -/
def single_file (f : Filename) (bytes : List Byte) : FileSystem :=
  fun g => if g = f then some bytes else none

/-- A read that goes well: the stream opens, the block is allocated and `fread`
delivers up to `count` bytes into a zeroed block. -/
def read_of (count : Nat) : ReadOutcome :=
  { fopen_ok := true, malloc_ok := true, fread_count := count, heap := fun _ => 0 }

/-- The user picks `f` in the "Open File" chooser and the read delivers up to
`count` bytes; the save prompt, if any, is answered "Don't Save". -/
def open_inputs (f : Filename) (count : Nat) : Inputs :=
  { prompt := GtkResponse.no,
    save_choice := { response := GtkResponse.cancel, filename := "" },
    write := WriteOutcome.ok,
    open_choice := { response := GtkResponse.accept, filename := f },
    read := read_of count }

/-- A document with unsaved changes: the buffer holds "hi", the file `a.txt`
still holds "old". -/
def unsaved_document : World :=
  { editor := { text_buffer := buffer_of [104, 105] 2, current_filename := some "a.txt",
                modified := true },
    files := single_file "a.txt" [111, 108, 100],
    dialogs := [] }

/-- An editor on `old.txt` with the text "old" and unsaved changes; the disk
also holds `notes.txt` with the five bytes of "hello". -/
def edited_document : World :=
  { editor := { text_buffer := buffer_of [111, 108, 100] 3, current_filename := some "old.txt",
                modified := true },
    files := single_file "notes.txt" [104, 101, 108, 108, 111],
    dialogs := [] }

/-- An empty editor; the disk holds `z.txt` with the three bytes "a", zero, "b". -/
def document_with_zero_byte_file : World :=
  { editor := { text_buffer := buffer_of [] 0, current_filename := none, modified := false },
    files := single_file "z.txt" [97, 0, 98],
    dialogs := [] }

/-- An editor on the text "cat bat cat" with the cursor at offset 0. -/
def cat_bat_cat : TextEditor :=
  { text_buffer := buffer_of [99, 97, 116, 32, 98, 97, 116, 32, 99, 97, 116] 0,
    current_filename := none, modified := false }

/-- A saved document "hi" with no undo or redo history. -/
def document_without_history : World :=
  { editor := { text_buffer := buffer_of [104, 105] 2, current_filename := some "a.txt",
                modified := false },
    files := single_file "a.txt" [104, 105],
    dialogs := [] }

/-- The editor after `find_next` selected the range `[s, s + n)`. -/
def selected (e : TextEditor) (s n : Nat) : TextEditor :=
  { e with text_buffer := gtk_text_buffer_select_range e.text_buffer s (s + n) }

/-- An unnamed document with unsaved changes: the buffer holds "hi",
`current_filename` is NULL; the disk holds `a.txt` with "old". -/
def unnamed_unsaved_document : World :=
  { editor := { text_buffer := buffer_of [104, 105] 2, current_filename := none,
                modified := true },
    files := single_file "a.txt" [111, 108, 100],
    dialogs := [] }

/-- The user answers "Save" to the save prompt; the write has the fate `out`, the
"Save File" chooser (shown for an unnamed document) is cancelled, and the
"Open File" chooser is accepted on `a.txt`, which is then read completely. -/
def save_answer_inputs (out : WriteOutcome) : Inputs :=
  { prompt := GtkResponse.yes,
    save_choice := { response := GtkResponse.cancel, filename := "" },
    write := out,
    open_choice := { response := GtkResponse.accept, filename := "a.txt" },
    read := read_of 3 }

/-- The user answers "Save" to the save prompt and the write goes well (to
`b.txt` for an unnamed document); the "Open File" chooser is then cancelled. -/
def save_then_cancel_open_inputs : Inputs :=
  { prompt := GtkResponse.yes,
    save_choice := { response := GtkResponse.accept, filename := "b.txt" },
    write := WriteOutcome.ok,
    open_choice := { response := GtkResponse.cancel, filename := "" },
    read := read_of 0 }

/-- The user answers "Cancel" to the save prompt. -/
def cancel_answer_inputs : Inputs :=
  { prompt := GtkResponse.cancel,
    save_choice := { response := GtkResponse.accept, filename := "b.txt" },
    write := WriteOutcome.ok,
    open_choice := { response := GtkResponse.accept, filename := "a.txt" },
    read := read_of 3 }

/-- A document "a", carriage return, "b" with the cursor at its end. -/
def document_with_carriage_return : World :=
  { editor := { text_buffer := buffer_of [97, 13, 98] 3, current_filename := none,
                modified := false },
    files := fun _ => none, dialogs := [] }

/-- A document "a", U+2029, "b" with the cursor at its end. -/
def document_with_paragraph_separator : World :=
  { editor := { text_buffer := buffer_of [97, 0xE2, 0x80, 0xA9, 98] 5, current_filename := none,
                modified := false },
    files := fun _ => none, dialogs := [] }

/-- A document "ab", newline, "cd" with the cursor at byte index `cursor`. -/
def two_line_document (cursor : Nat) : World :=
  { editor := { text_buffer := buffer_of [97, 98, 10, 99, 100] cursor, current_filename := none,
                modified := false },
    files := fun _ => none, dialogs := [] }

/-- The user picks `f` in the "Save File" chooser and the write has the fate
`out`. -/
def save_as_inputs (f : Filename) (out : WriteOutcome) : Inputs :=
  { prompt := GtkResponse.no,
    save_choice := { response := GtkResponse.accept, filename := f },
    write := out,
    open_choice := { response := GtkResponse.cancel, filename := "" },
    read := read_of 0 }

/-! ## Lemmas on C strings, validation and reading -/

theorem byte_ne_zero_of_pos (b : Byte) (h : 0 < b.val) : b ≠ 0 := by
  intro hb
  subst hb
  exact absurd h (by decide)

theorem utf8_scan_head (a : Byte) (t : List Byte) (lo hi : Nat)
    (h : utf8_scan (a :: t) 0 lo hi = true) :
    0 < a.val ∧ ∃ p l u, 0 < l ∧ utf8_scan t p l u = true := by
  rw [utf8_scan] at h
  by_cases h0 : a.val = 0
  · rw [if_pos h0] at h
    exact absurd h Bool.false_ne_true
  · refine ⟨Nat.pos_of_ne_zero h0, ?_⟩
    rw [if_neg h0] at h
    repeat first
      | exact absurd h Bool.false_ne_true
      | exact ⟨_, _, _, Nat.succ_pos _, h⟩
      | split at h

theorem utf8_scan_cont (a : Byte) (t : List Byte) (n lo hi : Nat) (hlo : 0 < lo)
    (h : utf8_scan (a :: t) (n + 1) lo hi = true) :
    0 < a.val ∧ utf8_scan t n 0x80 0xBF = true := by
  rw [utf8_scan] at h
  split at h
  · rename_i hc
    exact ⟨by omega, h⟩
  · exact absurd h Bool.false_ne_true

theorem utf8_scan_no_zero : ∀ (t : List Byte) (pending lo hi : Nat), 0 < lo →
    utf8_scan t pending lo hi = true → ∀ b ∈ t, b ≠ 0 := by
  intro t
  induction t with
  | nil => intro _ _ _ _ _ b hb; simp at hb
  | cons a t ih =>
    intro pending lo hi hlo h b hb
    cases pending with
    | zero =>
      obtain ⟨ha, p, l, u, hl, hs⟩ := utf8_scan_head a t lo hi h
      rcases List.mem_cons.1 hb with rfl | hb
      · exact byte_ne_zero_of_pos _ ha
      · exact ih p l u hl hs b hb
    | succ n =>
      obtain ⟨ha, hs⟩ := utf8_scan_cont a t n lo hi hlo h
      rcases List.mem_cons.1 hb with rfl | hb
      · exact byte_ne_zero_of_pos _ ha
      · exact ih n _ _ (Nat.succ_pos _) hs b hb

theorem valid_no_zero (t : List Byte) (h : g_utf8_validate t = true) : ∀ b ∈ t, b ≠ 0 :=
  utf8_scan_no_zero t 0 0x80 0xBF (Nat.succ_pos _) h

theorem c_str_eq_self (t : List Byte) (h : ∀ b ∈ t, b ≠ 0) : c_str t = t := by
  unfold c_str
  rw [List.takeWhile_eq_self_iff]
  intro b hb
  simpa using h b hb

theorem c_str_append_zero (t u : List Byte) (h : ∀ b ∈ t, b ≠ 0) : c_str (t ++ 0 :: u) = t := by
  induction t with
  | nil => simp [c_str]
  | cons a t ih =>
    have ha : a ≠ 0 := h a (by simp)
    have ht : ∀ b ∈ t, b ≠ 0 := fun b hb => h b (by simp [hb])
    have := ih ht
    simp only [c_str] at this ⊢
    simp [List.takeWhile_cons, ha, this]

theorem fread_content_complete (bytes : List Byte) (count : Nat) (heap : Nat → Byte)
    (h : bytes.length ≤ count) : fread_content bytes count heap = bytes ++ [0] := by
  unfold fread_content
  rw [List.take_of_length_le h, List.drop_eq_nil_of_le (by simpa using h)]
  simp

/-- Whatever `gtk_text_buffer_set_text` is given, the buffer ends up with valid
UTF-8 text. -/
theorem set_text_valid (b : GtkTextBuffer) (s : List Byte) :
    g_utf8_validate (gtk_text_buffer_set_text b s).1.text = true := by
  unfold gtk_text_buffer_set_text
  by_cases h : g_utf8_validate (c_str s) = true
  · simp [h]
  · simp only [h, Bool.false_eq_true, if_false]
    rfl

/-! ## Lemmas on the search -/

theorem isPrefixOf_iff_take (q t : List Byte) :
    q.isPrefixOf t = true ↔ t.take q.length = q := by
  induction q generalizing t with
  | nil => simp
  | cons a q ih =>
    cases t with
    | nil => simp
    | cons b t =>
      simp only [List.isPrefixOf, Bool.and_eq_true, beq_iff_eq, List.length_cons, List.take_succ_cons,
        List.cons.injEq, ih]
      constructor
      · rintro ⟨h1, h2⟩; exact ⟨h1.symm, h2⟩
      · rintro ⟨h1, h2⟩; exact ⟨h1.symm, h2⟩

theorem take_eq_length_le (q t : List Byte) (h : t.take q.length = q) : q.length ≤ t.length := by
  have := congrArg List.length h
  simp at this
  omega

theorem search_from_some (q : List Byte) :
    ∀ (t : List Byte) (off s : Nat), search_from q t off = some s →
      off ≤ s ∧ (t.drop (s - off)).take q.length = q ∧ s - off < t.length ∧
      ∀ j, j < s - off → (t.drop j).take q.length ≠ q := by
  intro t
  induction t with
  | nil => intro off s h; simp [search_from] at h
  | cons c cs ih =>
    intro off s h
    rw [search_from] at h
    split at h
    · rename_i hp
      simp only [Option.some.injEq] at h
      subst h
      refine ⟨le_refl _, ?_, ?_, ?_⟩
      · simpa using (isPrefixOf_iff_take q (c :: cs)).1 hp
      · simp
      · intro j hj; omega
    · rename_i hp
      obtain ⟨h1, h2, h3, h4⟩ := ih (off + 1) s h
      have hs : s - off = (s - (off + 1)) + 1 := by omega
      refine ⟨by omega, ?_, ?_, ?_⟩
      · rw [hs, List.drop_succ_cons]; exact h2
      · rw [hs]; simp; omega
      · intro j hj
        cases j with
        | zero =>
          intro hc
          exact hp ((isPrefixOf_iff_take q (c :: cs)).2 (by simpa using hc))
        | succ j =>
          rw [List.drop_succ_cons]
          exact h4 j (by omega)

theorem search_from_none (q : List Byte) (hq : q ≠ []) :
    ∀ (t : List Byte) (off : Nat), search_from q t off = none →
      ∀ j, (t.drop j).take q.length ≠ q := by
  intro t
  induction t with
  | nil =>
    intro off _ j hc
    simp at hc
    exact hq hc
  | cons c cs ih =>
    intro off h j
    rw [search_from] at h
    split at h
    · simp at h
    · rename_i hp
      cases j with
      | zero =>
        intro hc
        exact hp ((isPrefixOf_iff_take q (c :: cs)).2 (by simpa using hc))
      | succ j =>
        rw [List.drop_succ_cons]
        exact ih (off + 1) h j


theorem search_drop_some (text q : List Byte) (iter s : Nat)
    (h : search_from q (text.drop iter) iter = some s) :
    first_occurrence_from text q iter s := by
  obtain ⟨h1, h2, h3, h4⟩ := search_from_some q (text.drop iter) iter s h
  have hd : ∀ k, (text.drop iter).drop k = text.drop (iter + k) := by
    intro k; rw [List.drop_drop]
  rw [hd] at h2
  have hs : iter + (s - iter) = s := by omega
  rw [hs] at h2
  have hlen : s < text.length := by
    simp at h3; omega
  have hq := take_eq_length_le q (text.drop s) h2
  simp at hq
  refine ⟨h1, ⟨by omega, h2⟩, ?_⟩
  intro j hj1 hj2 hocc
  have := h4 (j - iter) (by omega)
  rw [hd] at this
  have hj : iter + (j - iter) = j := by omega
  rw [hj] at this
  exact this hocc.2

theorem search_drop_none (text q : List Byte) (hq : q ≠ []) (iter : Nat)
    (h : search_from q (text.drop iter) iter = none) :
    ∀ j, iter ≤ j → ¬ occurs_at text q j := by
  intro j hj hocc
  have := search_from_none q hq (text.drop iter) iter h (j - iter)
  rw [List.drop_drop] at this
  have hj' : iter + (j - iter) = j := by omega
  rw [hj'] at this
  exact this hocc.2

theorem forward_search_some (text str : List Byte) (iter : Nat) (limit : Option Nat)
    (hq : c_str str ≠ []) (m : Nat × Nat)
    (h : gtk_text_iter_forward_search text iter str limit = some m) :
    m.2 = m.1 + (c_str str).length ∧ first_occurrence_from text (c_str str) iter m.1 := by
  unfold gtk_text_iter_forward_search at h
  simp only at h
  split at h
  · exact absurd h (by simp)
  · have he : (c_str str).isEmpty = false := by
      cases hc : c_str str with
      | nil => exact absurd hc hq
      | cons _ _ => rfl
    rw [he] at h
    simp only [Bool.false_eq_true, if_false] at h
    split at h
    · rename_i s hs
      split at h
      · simp only [Option.some.injEq] at h
        subst h
        exact ⟨rfl, search_drop_some text (c_str str) iter s hs⟩
      · exact absurd h (by simp)
    · exact absurd h (by simp)

theorem forward_search_none (text str : List Byte) (iter : Nat)
    (hq : c_str str ≠ [])
    (h : gtk_text_iter_forward_search text iter str (some text.length) = none) :
    ∀ j, iter ≤ j → ¬ occurs_at text (c_str str) j := by
  unfold gtk_text_iter_forward_search at h
  simp only at h
  have hpos : 0 < (c_str str).length := List.length_pos.2 hq
  split at h
  · rename_i hl
    simp at hl
    intro j hj hocc
    have := hocc.1
    omega
  · have he : (c_str str).isEmpty = false := by
      cases hc : c_str str with
      | nil => exact absurd hc hq
      | cons _ _ => rfl
    rw [he] at h
    simp only [Bool.false_eq_true, if_false] at h
    split at h
    · rename_i s hs
      have hf := search_drop_some text (c_str str) iter s hs
      have := hf.2.1.1
      simp [this] at h
    · rename_i hs
      exact search_drop_none text (c_str str) hq iter hs

theorem forward_search_none_unlimited (text str : List Byte)
    (hq : c_str str ≠ [])
    (h : gtk_text_iter_forward_search text 0 str none = none) :
    ∀ j, ¬ occurs_at text (c_str str) j := by
  unfold gtk_text_iter_forward_search at h
  simp only at h
  have he : (c_str str).isEmpty = false := by
    cases hc : c_str str with
    | nil => exact absurd hc hq
    | cons _ _ => rfl
  rw [he] at h
  simp only [Option.any_none, Option.all_none, Bool.false_eq_true, if_false, if_true] at h
  intro j
  cases hs : search_from (c_str str) (text.drop 0) 0 with
  | some s => rw [hs] at h; exact absurd h (by simp)
  | none => exact search_drop_none text (c_str str) hq 0 hs j (Nat.zero_le _)

/-! ## Lemmas on the callbacks -/

theorem save_ok_files (w : World) (f : Filename) :
    (save_file_internal WriteOutcome.ok w f).2.files f
      = some (c_str w.editor.text_buffer.text) := by
  simp [save_file_internal, WriteOutcome.fopen_ok, WriteOutcome.fputs_ok, WriteOutcome.on_disk,
    write_file, gtk_text_buffer_get_text]

theorem set_text_text (b : GtkTextBuffer) (t : List Byte) (h : g_utf8_validate t = true) :
    (gtk_text_buffer_set_text b (t ++ [0])).1.text = t := by
  have hz := valid_no_zero t h
  simp [gtk_text_buffer_set_text, c_str_append_zero t [] hz, h]

theorem emit_changed_text_buffer (e : TextEditor) (c : Bool) :
    (emit_changed e c).text_buffer = e.text_buffer := by
  cases c <;> rfl

/-- What `on_open_file` leaves when it gets to read the chosen file. -/
theorem on_open_file_loaded (inp : Inputs) (w : World) (bytes : List Byte)
    (hgo : (unsaved_changes_guard inp w).1 = false)
    (hacc : inp.open_choice.response = GtkResponse.accept)
    (hfile : fopen_read inp.read (unsaved_changes_guard inp w).2.files inp.open_choice.filename
      = some bytes)
    (hmalloc : inp.read.malloc_ok = true) :
    (on_open_file inp w).editor =
      { text_buffer := (gtk_text_buffer_set_text (unsaved_changes_guard inp w).2.editor.text_buffer
          (fread_content bytes inp.read.fread_count inp.read.heap)).1,
        current_filename := some inp.open_choice.filename,
        modified := false } ∧
    (on_open_file inp w).files = (unsaved_changes_guard inp w).2.files ∧
    (on_open_file inp w).dialogs = Dialog.open_chooser :: (unsaved_changes_guard inp w).2.dialogs := by
  refine ⟨?_, ?_, ?_⟩ <;> unfold on_open_file <;>
    simp [hgo, hacc, hfile, hmalloc, emit_changed_text_buffer]

theorem save_file_internal_fst (out : WriteOutcome) (w : World) (f : Filename) :
    (save_file_internal out w f).1 = out.fputs_ok := by
  cases out <;> simp [save_file_internal, WriteOutcome.fopen_ok, WriteOutcome.fputs_ok]

/-- A failure of `fopen` or of `fputs` makes `save_file_internal` return FALSE
with the modified flag as it was. -/
theorem save_file_internal_detected_failure (out : WriteOutcome) (w : World) (f : Filename)
    (h : out.fputs_ok = false) :
    (save_file_internal out w f).1 = false ∧
    (save_file_internal out w f).2.editor.modified = w.editor.modified := by
  cases out <;> simp_all [save_file_internal, WriteOutcome.fopen_ok, WriteOutcome.fputs_ok]

theorem save_file_internal_current_filename (out : WriteOutcome) (w : World) (f : Filename) :
    (save_file_internal out w f).2.editor.current_filename = w.editor.current_filename := by
  cases out <;> simp [save_file_internal, WriteOutcome.fopen_ok, WriteOutcome.fputs_ok]

theorem c_str_append_terminator (t : List Byte) : c_str (t ++ [0]) = c_str t := by
  induction t with
  | nil => simp [c_str]
  | cons a t ih =>
    simp only [c_str] at ih ⊢
    by_cases ha : a = 0
    · subst ha; simp [List.takeWhile_cons]
    · simp [List.takeWhile_cons, ha, ih]

theorem unsaved_changes_guard_current_filename (inp : Inputs) (w : World) :
    (unsaved_changes_guard inp w).2.editor.current_filename =
      if w.editor.modified = true ∧ inp.prompt = GtkResponse.yes ∧
          w.editor.current_filename = none ∧ inp.save_choice.response = GtkResponse.accept ∧
          (save_file_internal inp.write w inp.save_choice.filename).1 = true
      then some inp.save_choice.filename else w.editor.current_filename := by
  unfold unsaved_changes_guard prompt_save_changes on_save_file on_save_as_file
  simp only [save_file_internal_fst]
  cases hm : w.editor.modified <;> simp
  by_cases hp : inp.prompt = GtkResponse.yes
  · simp only [hp, if_true, true_and]
    cases hc : w.editor.current_filename with
    | some g => simp [save_file_internal_current_filename, hc]
    | none =>
      simp only [true_and]
      by_cases ha : inp.save_choice.response = GtkResponse.accept
      · simp only [ha, if_true, true_and]
        cases hf : inp.write.fputs_ok <;> simp [save_file_internal_current_filename, hc]
      · simp [ha, hc]
  · simp only [hp, if_false, false_and]
    split <;> rfl

/-- The three ways a call of `find_next` with a non-empty query can go. -/
theorem find_next_cases (e : TextEditor) (q : List Byte) (hq : c_str q ≠ []) :
    (∃ s, first_occurrence_from e.text_buffer.text (c_str q) e.text_buffer.insert s ∧
        find_next e q = (true, selected e s (c_str q).length)) ∨
    ((∀ i, e.text_buffer.insert ≤ i → ¬ occurs_at e.text_buffer.text (c_str q) i) ∧
      ∃ s, first_occurrence_from e.text_buffer.text (c_str q) 0 s ∧
        find_next e q = (true, selected e s (c_str q).length)) ∨
    ((∀ i, ¬ occurs_at e.text_buffer.text (c_str q) i) ∧ find_next e q = (false, e)) := by
  cases h1 : gtk_text_iter_forward_search e.text_buffer.text e.text_buffer.insert q
      (some e.text_buffer.text.length) with
  | some m =>
    obtain ⟨hm2, hm1⟩ := forward_search_some _ _ _ _ hq m h1
    refine Or.inl ⟨m.1, hm1, ?_⟩
    simp [find_next, h1, selected, hm2]
  | none =>
    have hnone := forward_search_none _ _ _ hq h1
    cases h2 : gtk_text_iter_forward_search e.text_buffer.text 0 q none with
    | some m =>
      obtain ⟨hm2, hm1⟩ := forward_search_some _ _ _ _ hq m h2
      refine Or.inr (Or.inl ⟨hnone, m.1, hm1, ?_⟩)
      simp [find_next, h1, h2, selected, hm2]
    | none =>
      refine Or.inr (Or.inr ⟨forward_search_none_unlimited _ _ hq h2, ?_⟩)
      simp [find_next, h1, h2]

theorem after_last_newline_snoc_newline (s : List Byte) :
    after_last_newline (s ++ [10]) = [] := by
  simp [after_last_newline]

theorem after_last_newline_snoc (s : List Byte) (b : Byte) (hb : b ≠ 10) :
    after_last_newline (s ++ [b]) = after_last_newline s ++ [b] := by
  simp [after_last_newline, List.takeWhile_cons, hb]

theorem characters_snoc (s : List Byte) (b : Byte) :
    characters (s ++ [b]) = characters s + (if utf8_char_start b then 1 else 0) := by
  unfold characters utf8_char_start
  rw [List.countP_append]
  by_cases h1 : b.val < 0x80
  · have h2 : ¬ (0x80 ≤ b.val) := by omega
    simp [List.countP_cons, h1, h2]
  · by_cases h3 : 0xC0 ≤ b.val
    · have h4 : ¬ (b.val ≤ 0xBF) := by omega
      simp [List.countP_cons, h1, h3, h4]
    · have h5 : 0x80 ≤ b.val := by omega
      have h6 : b.val ≤ 0xBF := by omega
      simp [List.countP_cons, h1, h3, h5, h6]

theorem foldl_newline_forward (s : List Byte) :
    s.foldl newline_forward (0, 0) = (s.count 10, characters (after_last_newline s)) := by
  induction s using List.reverseRecOn with
  | nil => rfl
  | append_singleton s b ih =>
    rw [List.foldl_append, ih]
    simp only [List.foldl_cons, List.foldl_nil, newline_forward]
    by_cases hb : b = 10
    · subst hb
      simp [after_last_newline_snoc_newline, characters, List.count_append]
    · rw [if_neg hb, after_last_newline_snoc s b hb, characters_snoc]
      have hc : List.count 10 (s ++ [b]) = List.count 10 s := by
        simp [List.count_append, List.count_cons, hb]
      rw [hc]
      by_cases hs : utf8_char_start b = true
      · simp [hs]
      · simp [hs]

theorem unsaved_changes_guard_fst (inp : Inputs) (w : World) :
    (unsaved_changes_guard inp w).1
      = (w.editor.modified && decide (inp.prompt ≠ GtkResponse.yes)
          && decide (inp.prompt ≠ GtkResponse.no)) := by
  unfold unsaved_changes_guard prompt_save_changes
  cases hm : w.editor.modified
  · simp
  · by_cases hy : inp.prompt = GtkResponse.yes
    · simp [hy]
    · by_cases hn : inp.prompt = GtkResponse.no
      · simp [hy, hn]
      · simp [hy, hn]

theorem unsaved_changes_guard_unmodified (inp : Inputs) (w : World)
    (h : w.editor.modified = false) : unsaved_changes_guard inp w = (false, w) := by
  simp [unsaved_changes_guard, h]

theorem unsaved_changes_guard_not_save (inp : Inputs) (w : World)
    (hm : w.editor.modified = true) (hy : inp.prompt ≠ GtkResponse.yes) :
    (unsaved_changes_guard inp w).2
      = { w with dialogs := Dialog.save_changes_prompt :: w.dialogs } := by
  unfold unsaved_changes_guard prompt_save_changes
  by_cases hn : inp.prompt = GtkResponse.no
  · simp [hm, hy, hn]
  · simp [hm, hy, hn]

theorem save_file_internal_text_buffer (out : WriteOutcome) (w : World) (f : Filename) :
    (save_file_internal out w f).2.editor.text_buffer = w.editor.text_buffer := by
  cases out <;> simp [save_file_internal, WriteOutcome.fopen_ok, WriteOutcome.fputs_ok]

theorem unsaved_changes_guard_text_buffer (inp : Inputs) (w : World) :
    (unsaved_changes_guard inp w).2.editor.text_buffer = w.editor.text_buffer := by
  unfold unsaved_changes_guard prompt_save_changes on_save_file on_save_as_file
  cases hm : w.editor.modified
  · simp
  · by_cases hy : inp.prompt = GtkResponse.yes
    · cases hc : w.editor.current_filename with
      | some g => simp [hy, hc, save_file_internal_text_buffer]
      | none =>
        by_cases ha : inp.save_choice.response = GtkResponse.accept
        · simp only [hy, hc, ha, if_true, save_file_internal_fst]
          cases hf : inp.write.fputs_ok <;> simp [save_file_internal_text_buffer]
        · simp [hy, hc, ha]
    · by_cases hn : inp.prompt = GtkResponse.no
      · simp [hy, hn]
      · simp [hy, hn]

/-- What `on_open_file` leaves when the chooser is cancelled or `fopen` fails. -/
theorem on_open_file_not_opened (inp : Inputs) (w : World)
    (hfail : inp.open_choice.response ≠ GtkResponse.accept ∨
      fopen_read inp.read (unsaved_changes_guard inp w).2.files inp.open_choice.filename = none) :
    (on_open_file inp w).editor = (unsaved_changes_guard inp w).2.editor ∧
    (on_open_file inp w).files = (unsaved_changes_guard inp w).2.files := by
  unfold on_open_file
  cases hg : (unsaved_changes_guard inp w).1
  · by_cases ha : inp.open_choice.response = GtkResponse.accept
    · rcases hfail with h | h
      · exact absurd ha h
      · simp [hg, ha, h]
    · simp [hg, ha]
  · simp [hg]

theorem iter_walk_zero (text : List Byte) (pos : Nat × Nat) : iter_walk text 0 pos = pos := by
  cases text <;> rfl

theorem only_newline_line_ends_cons (b : Byte) (rest : List Byte)
    (h : only_newline_line_ends (b :: rest)) :
    b ≠ 13 ∧ ((b :: rest).take 3 ≠ [0xE2, 0x80, 0xA9]) ∧ only_newline_line_ends rest := by
  obtain ⟨h1, h2⟩ := h
  simp only [List.tails_cons, List.all_cons, Bool.and_eq_true, bne_iff_ne, ne_eq] at h2
  refine ⟨?_, h2.1, ?_, h2.2⟩
  · intro hb
    exact h1 (by simp [hb])
  · intro hm
    exact h1 (List.mem_cons_of_mem _ hm)

theorem iter_forward_eq_newline_forward (pos : Nat × Nat) (b : Byte) (rest : List Byte)
    (h13 : b ≠ 13) (hps : (b :: rest).take 3 ≠ [0xE2, 0x80, 0xA9]) :
    iter_forward pos b rest = newline_forward pos b := by
  have he : ends_line b rest = decide (b = 10) := by
    unfold ends_line
    by_cases h10 : b = 10
    · simp [h10]
    · have hE : ¬ (b = 0xE2 ∧ rest.take 2 = [0x80, 0xA9]) := by
        rintro ⟨hb, hr⟩
        apply hps
        subst hb
        simp only [List.take_succ_cons] at hr ⊢
        rw [hr]
      by_cases hb : b = 0xE2
      · have hr : ¬ (rest.take 2 = [0x80, 0xA9]) := fun hr => hE ⟨hb, hr⟩
        simp [h10, h13, hb, hr]
      · simp [h10, h13, hb]
  unfold iter_forward newline_forward
  rw [he]
  by_cases h10 : b = 10
  · simp [h10]
  · simp [h10]

theorem iter_walk_eq_foldl : ∀ (text : List Byte) (n : Nat) (pos : Nat × Nat),
    only_newline_line_ends text →
    iter_walk text n pos = (text.take n).foldl newline_forward pos := by
  intro text
  induction text with
  | nil => intro n pos _; simp [iter_walk]
  | cons b rest ih =>
    intro n pos h
    obtain ⟨h13, hps, hrest⟩ := only_newline_line_ends_cons b rest h
    cases n with
    | zero => simp [iter_walk]
    | succ n =>
      rw [iter_walk, iter_forward_eq_newline_forward pos b rest h13 hps, ih n _ hrest]
      simp [List.take_succ_cons]

theorem iter_position_eq (text : List Byte) (cursor : Nat) (h : only_newline_line_ends text) :
    iter_position text cursor
      = (newlines_before text cursor, characters (line_before_cursor text cursor)) := by
  unfold iter_position
  rw [iter_walk_eq_foldl text cursor (0, 0) h]
  exact foldl_newline_forward (text.take cursor)

/-- How the callbacks move `current_filename`, in terms of what
`save_file_internal` returns and of whether `on_open_file` reaches the
replacement of the buffer text. -/
theorem current_filename_after_callbacks (inp : Inputs) (w : World)
    (out : WriteOutcome) (f : Filename) :
    ((on_new_file inp w).editor.current_filename =
      if (unsaved_changes_guard inp w).1 = true then w.editor.current_filename else none) ∧
    ((on_open_file inp w).editor.current_filename =
      if load_succeeds inp w = true then some inp.open_choice.filename
      else (unsaved_changes_guard inp w).2.editor.current_filename) ∧
    ((on_save_as_file inp w).editor.current_filename =
      if inp.save_choice.response = GtkResponse.accept ∧
          (save_file_internal inp.write w inp.save_choice.filename).1 = true
      then some inp.save_choice.filename else w.editor.current_filename) ∧
    ((save_file_internal out w f).2.editor.current_filename = w.editor.current_filename) ∧
    ((unsaved_changes_guard inp w).2.editor.current_filename =
      if w.editor.modified = true ∧ inp.prompt = GtkResponse.yes ∧
          w.editor.current_filename = none ∧ inp.save_choice.response = GtkResponse.accept ∧
          (save_file_internal inp.write w inp.save_choice.filename).1 = true
      then some inp.save_choice.filename else w.editor.current_filename) := by
  refine ⟨?_, ?_, ?_, save_file_internal_current_filename out w f,
    unsaved_changes_guard_current_filename inp w⟩
  · unfold on_new_file
    cases hg : (unsaved_changes_guard inp w).1
    · simp [hg]
    · simp only [hg, if_true]
      unfold unsaved_changes_guard prompt_save_changes at hg ⊢
      cases hm : w.editor.modified
      · simp [hm] at hg
      · by_cases hy : inp.prompt = GtkResponse.yes
        · simp [hm, hy] at hg
        · by_cases hn : inp.prompt = GtkResponse.no
          · simp [hm, hy, hn] at hg
          · simp [hy, hn]
  · unfold on_open_file load_succeeds
    cases hg : (unsaved_changes_guard inp w).1
    · by_cases ha : inp.open_choice.response = GtkResponse.accept
      · cases hf : fopen_read inp.read (unsaved_changes_guard inp w).2.files
            inp.open_choice.filename with
        | none => simp [hg, ha, hf]
        | some bytes =>
          cases hmal : inp.read.malloc_ok <;> simp [hg, ha, hf, hmal]
      · simp [hg, ha]
    · simp [hg]
  · unfold on_save_as_file
    by_cases ha : inp.save_choice.response = GtkResponse.accept
    · simp only [ha, if_true, true_and, save_file_internal_fst]
      cases hf : inp.write.fputs_ok <;> simp [save_file_internal_current_filename]
    · simp [ha]

/-! ## The claims -/

/-- Claim C1. Round trip: when `save_file_internal` writes the buffer text `T` to a
file and every byte reaches it, and `on_open_file` then reads the whole of that
file in its accepted branch, the buffer holds exactly `T`. -/
theorem save_then_load_round_trip (w w2 : World) (f : Filename) (inp : Inputs)
    (hT : g_utf8_validate w.editor.text_buffer.text = true)
    (hgo : (unsaved_changes_guard inp w2).1 = false)
    (hfile : (unsaved_changes_guard inp w2).2.files f
      = (save_file_internal WriteOutcome.ok w f).2.files f)
    (hacc : inp.open_choice = { response := GtkResponse.accept, filename := f })
    (hopen : inp.read.fopen_ok = true) (hmalloc : inp.read.malloc_ok = true)
    (hread : w.editor.text_buffer.text.length ≤ inp.read.fread_count) :
    (save_file_internal WriteOutcome.ok w f).1 = true ∧
    (on_open_file inp w2).editor.text_buffer.text = w.editor.text_buffer.text := by
  have hz := valid_no_zero _ hT
  have hc : c_str w.editor.text_buffer.text = w.editor.text_buffer.text := c_str_eq_self _ hz
  refine ⟨by simp [save_file_internal, WriteOutcome.fopen_ok, WriteOutcome.fputs_ok], ?_⟩
  have hf : fopen_read inp.read (unsaved_changes_guard inp w2).2.files inp.open_choice.filename
      = some w.editor.text_buffer.text := by
    rw [hacc]
    simp only [fopen_read, hopen, if_true]
    rw [hfile, save_ok_files, hc]
  have hl := (on_open_file_loaded inp w2 _ hgo (by rw [hacc]) hf hmalloc).1
  rw [hl]
  simp only
  rw [fread_content_complete _ _ _ hread]
  exact set_text_text _ _ hT

/-- Witness of C1: the text "hi" is saved to `a.txt`, the buffer is emptied by
`on_new_file`, and `on_open_file` on `a.txt` brings "hi" back. -/
theorem save_then_load_round_trip_witness :
    (save_file_internal WriteOutcome.ok unsaved_document "a.txt").1 = true ∧
    (on_open_file (open_inputs "a.txt" 2)
      (on_new_file (open_inputs "a.txt" 2)
        (save_file_internal WriteOutcome.ok unsaved_document "a.txt").2)).editor.text_buffer.text
      = unsaved_document.editor.text_buffer.text :=
  save_then_load_round_trip unsaved_document
    (on_new_file (open_inputs "a.txt" 2)
      (save_file_internal WriteOutcome.ok unsaved_document "a.txt").2)
    "a.txt" (open_inputs "a.txt" 2)
    (by decide) (by decide) (by decide) rfl rfl rfl (by decide)

/-- Claim C2. The modified flag is FALSE right after every successful load (the
handler of "changed" runs while the text is replaced, the flag is cleared after
it) and after every `save_file_internal` that returns TRUE; every delivery of
"changed" to `on_text_changed`, such as the one a keystroke causes, sets it. -/
theorem modified_false_after_load_or_save_true_after_change (inp : Inputs) (w : World)
    (bytes : List Byte) (out : WriteOutcome) (f : Filename) (e : TextEditor) (pos : Nat)
    (s : List Byte) :
    ((unsaved_changes_guard inp w).1 = false →
      inp.open_choice.response = GtkResponse.accept →
      fopen_read inp.read (unsaved_changes_guard inp w).2.files inp.open_choice.filename
        = some bytes →
      inp.read.malloc_ok = true →
      (on_open_file inp w).editor.modified = false) ∧
    ((save_file_internal out w f).1 = true →
      (save_file_internal out w f).2.editor.modified = false) ∧
    (on_text_changed e).modified = true ∧
    ((gtk_text_buffer_insert w.editor.text_buffer pos s).2 = true →
      (text_view_insert w pos s).editor.modified = true) := by
  refine ⟨?_, ?_, rfl, ?_⟩
  · intro hgo hacc hfile hmalloc
    rw [(on_open_file_loaded inp w bytes hgo hacc hfile hmalloc).1]
  · intro h
    cases out <;>
      simp_all [save_file_internal, WriteOutcome.fopen_ok, WriteOutcome.fputs_ok]
  · intro h
    simp [text_view_insert, h, emit_changed, on_text_changed]

/-- Witness of C2: a modified editor opens `a.txt` (the prompt answered "Don't
Save"), saves, and receives a keystroke. -/
theorem modified_false_after_load_or_save_true_after_change_witness :
    (on_open_file (open_inputs "a.txt" 2)
      { editor := { text_buffer := buffer_of [111] 1, current_filename := none, modified := true },
        files := single_file "a.txt" [104, 105], dialogs := [] }).editor.modified = false ∧
    (save_file_internal WriteOutcome.ok
      { editor := { text_buffer := buffer_of [111] 1, current_filename := none, modified := true },
        files := single_file "a.txt" [104, 105], dialogs := [] } "b.txt").2.editor.modified
      = false ∧
    (text_view_insert
      { editor := { text_buffer := buffer_of [111] 1, current_filename := none, modified := false },
        files := single_file "a.txt" [104, 105], dialogs := [] } 1 [107]).editor.modified
      = true :=
  ⟨(modified_false_after_load_or_save_true_after_change (open_inputs "a.txt" 2)
      { editor := { text_buffer := buffer_of [111] 1, current_filename := none, modified := true },
        files := single_file "a.txt" [104, 105], dialogs := [] }
      [104, 105] WriteOutcome.ok "b.txt"
      { text_buffer := buffer_of [] 0, current_filename := none, modified := false } 1 [107]).1
      (by decide) (by decide) (by decide) (by decide),
   (modified_false_after_load_or_save_true_after_change (open_inputs "a.txt" 2)
      { editor := { text_buffer := buffer_of [111] 1, current_filename := none, modified := true },
        files := single_file "a.txt" [104, 105], dialogs := [] }
      [104, 105] WriteOutcome.ok "b.txt"
      { text_buffer := buffer_of [] 0, current_filename := none, modified := false } 1 [107]).2.1
      (by decide),
   (modified_false_after_load_or_save_true_after_change (open_inputs "a.txt" 2)
      { editor := { text_buffer := buffer_of [111] 1, current_filename := none, modified := false },
        files := single_file "a.txt" [104, 105], dialogs := [] }
      [104, 105] WriteOutcome.ok "b.txt"
      { text_buffer := buffer_of [] 0, current_filename := none, modified := false } 1 [107]).2.2.2
      (by decide)⟩

/-- Claim C3 (not met by the code). With the text "hi" unsaved and a flush that
fails at `fclose` before any byte reaches the file, `save_file_internal`
returns TRUE, clears the modified flag and shows no dialog, while the file is
left empty. -/
theorem save_file_internal_ignores_failed_flush :
    (save_file_internal (WriteOutcome.fclose_failed 0) unsaved_document "a.txt").1 = true ∧
    (save_file_internal (WriteOutcome.fclose_failed 0) unsaved_document "a.txt").2.editor.modified
      = false ∧
    unsaved_document.editor.modified = true ∧
    (save_file_internal (WriteOutcome.fclose_failed 0) unsaved_document "a.txt").2.files "a.txt"
      = some [] ∧
    (save_file_internal (WriteOutcome.fclose_failed 0) unsaved_document "a.txt").2.dialogs = [] := by
  decide

/-- Claim C4 (not met by the code). The user answers "Don't Save" and picks
`notes.txt`; `fread` delivers two of its five bytes.  `on_open_file` shows no
error dialog (the prompt and the file chooser are the only dialogs), replaces
the buffer text by what the block holds, sets `current_filename` and clears the
modified flag, as after a good load. -/
theorem on_open_file_ignores_short_read :
    (on_open_file (open_inputs "notes.txt" 2) edited_document).dialogs
      = [Dialog.open_chooser, Dialog.save_changes_prompt] ∧
    (on_open_file (open_inputs "notes.txt" 2) edited_document).editor.text_buffer.text
      = [104, 101] ∧
    (on_open_file (open_inputs "notes.txt" 2) edited_document).editor.current_filename
      = some "notes.txt" ∧
    (on_open_file (open_inputs "notes.txt" 2) edited_document).editor.modified = false ∧
    edited_document.editor.text_buffer.text = [111, 108, 100] ∧
    edited_document.editor.current_filename = some "old.txt" ∧
    edited_document.editor.modified = true ∧
    edited_document.files "notes.txt" = some [104, 101, 108, 108, 111] := by
  decide

/-- Claim C5 fails as stated: the three bytes "a", zero, "b" of `z.txt` are read
completely and the load succeeds, yet the buffer holds the single byte "a". -/
theorem load_stops_at_zero_byte :
    (on_open_file (open_inputs "z.txt" 3) document_with_zero_byte_file).editor.current_filename
      = some "z.txt" ∧
    (on_open_file (open_inputs "z.txt" 3) document_with_zero_byte_file).editor.text_buffer.text
      = [97] ∧
    (on_open_file (open_inputs "z.txt" 3) document_with_zero_byte_file).editor.text_buffer.text
      ≠ [97, 0, 98] := by
  decide

/-- Claim C5, amended. After a successful `on_open_file` that read the whole file,
the buffer text is the bytes of the file up to its first zero byte, whenever
these are valid UTF-8; for a file without a zero byte that is the complete
sequence of its bytes. -/
theorem load_is_byte_for_byte_up_to_zero (inp : Inputs) (w : World) (bytes : List Byte)
    (hgo : (unsaved_changes_guard inp w).1 = false)
    (hacc : inp.open_choice.response = GtkResponse.accept)
    (hfile : fopen_read inp.read (unsaved_changes_guard inp w).2.files inp.open_choice.filename
      = some bytes)
    (hmalloc : inp.read.malloc_ok = true)
    (hread : bytes.length ≤ inp.read.fread_count)
    (hvalid : g_utf8_validate (c_str bytes) = true) :
    (on_open_file inp w).editor.text_buffer.text = c_str bytes ∧
    ((∀ b ∈ bytes, b ≠ 0) → (on_open_file inp w).editor.text_buffer.text = bytes) := by
  have hl := (on_open_file_loaded inp w bytes hgo hacc hfile hmalloc).1
  have ht : (on_open_file inp w).editor.text_buffer.text = c_str bytes := by
    rw [hl]
    simp only
    rw [fread_content_complete _ _ _ hread]
    simp [gtk_text_buffer_set_text, c_str_append_terminator, hvalid]
  refine ⟨ht, ?_⟩
  intro hz
  rw [ht, c_str_eq_self bytes hz]

/-- Witness of C5 amended: `z.txt` with "a", zero, "b" loads as "a". -/
theorem load_is_byte_for_byte_up_to_zero_witness :
    (on_open_file (open_inputs "z.txt" 3) document_with_zero_byte_file).editor.text_buffer.text
      = c_str [97, 0, 98] :=
  (load_is_byte_for_byte_up_to_zero (open_inputs "z.txt" 3) document_with_zero_byte_file
    [97, 0, 98] (by decide) (by decide) (by decide) (by decide) (by decide) (by decide)).1

/-- Claim C6 (not met by the code). The document "hi" of `a.txt` is saved as
`b.txt` and the flush at `fclose` fails before any byte reaches the file: the
save has failed (`b.txt` is empty), yet `current_filename` is now `b.txt`.
Likewise a load that got two of the five bytes of `notes.txt` sets
`current_filename` to `notes.txt`.  A failure of `fopen` in the save does leave
`current_filename` as it was. -/
theorem current_filename_set_after_failed_save :
    unsaved_document.editor.current_filename = some "a.txt" ∧
    unsaved_document.editor.text_buffer.text = [104, 105] ∧
    (on_save_as_file (save_as_inputs "b.txt" (WriteOutcome.fclose_failed 0))
      unsaved_document).editor.current_filename = some "b.txt" ∧
    (on_save_as_file (save_as_inputs "b.txt" (WriteOutcome.fclose_failed 0))
      unsaved_document).files "b.txt" = some [] ∧
    (on_save_as_file (save_as_inputs "b.txt" (WriteOutcome.fclose_failed 0))
      unsaved_document).dialogs = [Dialog.save_chooser] ∧
    edited_document.editor.current_filename = some "old.txt" ∧
    edited_document.files "notes.txt" = some [104, 101, 108, 108, 111] ∧
    (on_open_file (open_inputs "notes.txt" 2) edited_document).editor.current_filename
      = some "notes.txt" ∧
    (on_open_file (open_inputs "notes.txt" 2) edited_document).editor.text_buffer.text
      = [104, 101] ∧
    (on_save_as_file (save_as_inputs "b.txt" WriteOutcome.open_failed)
      unsaved_document).editor.current_filename = some "a.txt" := by
  decide

/-- Claim C7 (not met by the code). On "cat bat cat" with the cursor at offset 0,
three successive calls of `find_next` for "cat" all select `[0,3)`: the match
is selected with the mark `insert` at its start, so the next call starts from
offset 0 again.  A call that starts from offset 3 does select `[8,11)`. -/
theorem find_next_repeats_the_same_match :
    find_next cat_bat_cat [99, 97, 116] = (true, selected cat_bat_cat 0 3) ∧
    (find_next cat_bat_cat [99, 97, 116]).2.text_buffer.insert = 0 ∧
    find_next (find_next cat_bat_cat [99, 97, 116]).2 [99, 97, 116]
      = (true, selected cat_bat_cat 0 3) ∧
    find_next (find_next (find_next cat_bat_cat [99, 97, 116]).2 [99, 97, 116]).2 [99, 97, 116]
      = (true, selected cat_bat_cat 0 3) ∧
    find_next { cat_bat_cat with text_buffer := { cat_bat_cat.text_buffer with insert := 3 } }
        [99, 97, 116]
      = (true, selected cat_bat_cat 8 3) := by
  decide

/-- Claim C8. For a non-empty query, `find_next` selects the first occurrence of
the query at or after the cursor if there is one; if there is none but the
query occurs in the text, it selects the first occurrence counted from
offset 0. -/
theorem find_next_first_forward_else_wraps (e : TextEditor) (q : List Byte)
    (hq : c_str q ≠ []) :
    ((∃ i, e.text_buffer.insert ≤ i ∧ occurs_at e.text_buffer.text (c_str q) i) →
      (find_next e q).1 = true ∧
      first_occurrence_from e.text_buffer.text (c_str q) e.text_buffer.insert
        (find_next e q).2.text_buffer.insert ∧
      (find_next e q).2.text_buffer.selection_bound
        = (find_next e q).2.text_buffer.insert + (c_str q).length) ∧
    ((¬ ∃ i, e.text_buffer.insert ≤ i ∧ occurs_at e.text_buffer.text (c_str q) i) →
      (∃ i, occurs_at e.text_buffer.text (c_str q) i) →
      (find_next e q).1 = true ∧
      first_occurrence_from e.text_buffer.text (c_str q) 0
        (find_next e q).2.text_buffer.insert ∧
      (find_next e q).2.text_buffer.selection_bound
        = (find_next e q).2.text_buffer.insert + (c_str q).length) := by
  constructor
  · rintro ⟨i, hi, hocc⟩
    rcases find_next_cases e q hq with ⟨s, hs, hf⟩ | ⟨hno, _⟩ | ⟨hno, _⟩
    · rw [hf]; exact ⟨rfl, hs, rfl⟩
    · exact absurd hocc (hno i hi)
    · exact absurd hocc (hno i)
  · rintro hnone ⟨i, hocc⟩
    rcases find_next_cases e q hq with ⟨s, hs, _⟩ | ⟨_, s, hs, hf⟩ | ⟨hno, _⟩
    · exact absurd ⟨s, hs.1, hs.2.1⟩ hnone
    · rw [hf]; exact ⟨rfl, hs, rfl⟩
    · exact absurd hocc (hno i)

/-- Witness of C8: on "cat bat cat" the query "cat" from offset 3 is found at
`[8,11)`, and from offset 9 the search wraps to `[0,3)`. -/
theorem find_next_first_forward_else_wraps_witness :
    ((find_next { cat_bat_cat with text_buffer := buffer_of cat_bat_cat.text_buffer.text 3 }
        [99, 97, 116]).1 = true ∧
      first_occurrence_from cat_bat_cat.text_buffer.text (c_str [99, 97, 116]) 3
        (find_next { cat_bat_cat with text_buffer := buffer_of cat_bat_cat.text_buffer.text 3 }
          [99, 97, 116]).2.text_buffer.insert ∧
      (find_next { cat_bat_cat with text_buffer := buffer_of cat_bat_cat.text_buffer.text 3 }
          [99, 97, 116]).2.text_buffer.selection_bound
        = (find_next { cat_bat_cat with text_buffer := buffer_of cat_bat_cat.text_buffer.text 3 }
            [99, 97, 116]).2.text_buffer.insert + (c_str [99, 97, 116]).length) ∧
    ((find_next { cat_bat_cat with text_buffer := buffer_of cat_bat_cat.text_buffer.text 9 }
        [99, 97, 116]).1 = true ∧
      first_occurrence_from cat_bat_cat.text_buffer.text (c_str [99, 97, 116]) 0
        (find_next { cat_bat_cat with text_buffer := buffer_of cat_bat_cat.text_buffer.text 9 }
          [99, 97, 116]).2.text_buffer.insert ∧
      (find_next { cat_bat_cat with text_buffer := buffer_of cat_bat_cat.text_buffer.text 9 }
          [99, 97, 116]).2.text_buffer.selection_bound
        = (find_next { cat_bat_cat with text_buffer := buffer_of cat_bat_cat.text_buffer.text 9 }
            [99, 97, 116]).2.text_buffer.insert + (c_str [99, 97, 116]).length) :=
  ⟨(find_next_first_forward_else_wraps
      { cat_bat_cat with text_buffer := buffer_of cat_bat_cat.text_buffer.text 3 }
      [99, 97, 116] (by decide)).1 ⟨8, by decide, by decide⟩,
   (find_next_first_forward_else_wraps
      { cat_bat_cat with text_buffer := buffer_of cat_bat_cat.text_buffer.text 9 }
      [99, 97, 116] (by decide)).2
      (by
        rintro ⟨i, hi, hocc⟩
        have h1 : i + 3 ≤ 11 := hocc.1
        have h2 : 9 ≤ i := hi
        omega)
      ⟨0, by decide⟩⟩

/-- Claim C9 fails as stated: with the empty query on "cat bat cat", cursor at
offset 0, `find_next` returns TRUE and moves the selection to the empty range
at offset 1. -/
theorem find_next_empty_query_is_found :
    (find_next cat_bat_cat []).1 = true ∧
    (find_next cat_bat_cat []).2 = selected cat_bat_cat 1 0 ∧
    (find_next cat_bat_cat []).2 ≠ cat_bat_cat := by
  decide

/-- Claim C9, amended. For a non-empty query, `find_next` returns FALSE exactly
when the query does not occur anywhere in the buffer text, and then it leaves
the editor (the selection included) unchanged; otherwise it returns TRUE and
the selected range `[start, end)` is an occurrence of the query, byte for
byte, the text being left as it was. -/
theorem find_next_not_found_iff_absent (e : TextEditor) (q : List Byte)
    (hq : c_str q ≠ []) :
    ((find_next e q).1 = false ↔ ∀ i, ¬ occurs_at e.text_buffer.text (c_str q) i) ∧
    ((find_next e q).1 = false → (find_next e q).2 = e) ∧
    ((find_next e q).1 = true →
      occurs_at e.text_buffer.text (c_str q) (find_next e q).2.text_buffer.insert ∧
      (find_next e q).2.text_buffer.selection_bound
        = (find_next e q).2.text_buffer.insert + (c_str q).length ∧
      (find_next e q).2.text_buffer.text = e.text_buffer.text) := by
  rcases find_next_cases e q hq with ⟨s, hs, hf⟩ | ⟨_, s, hs, hf⟩ | ⟨hno, hf⟩
  · rw [hf]
    refine ⟨⟨fun h => absurd h (by simp), fun h => absurd hs.2.1 (h s)⟩,
      fun h => absurd h (by simp), fun _ => ⟨hs.2.1, rfl, rfl⟩⟩
  · rw [hf]
    refine ⟨⟨fun h => absurd h (by simp), fun h => absurd hs.2.1 (h s)⟩,
      fun h => absurd h (by simp), fun _ => ⟨hs.2.1, rfl, rfl⟩⟩
  · rw [hf]
    exact ⟨⟨fun _ => hno, fun _ => rfl⟩, fun _ => rfl, fun h => absurd h (by simp)⟩

/-- Witness of C9 amended: "dog" occurs nowhere in "cat bat cat" and the call
leaves the editor as it was; "bat" is found and selected at `[4,7)`. -/
theorem find_next_not_found_iff_absent_witness :
    (∀ i, ¬ occurs_at cat_bat_cat.text_buffer.text (c_str [100, 111, 103]) i) ∧
    (find_next cat_bat_cat [100, 111, 103]).2 = cat_bat_cat ∧
    (occurs_at cat_bat_cat.text_buffer.text (c_str [98, 97, 116])
        (find_next cat_bat_cat [98, 97, 116]).2.text_buffer.insert ∧
      (find_next cat_bat_cat [98, 97, 116]).2.text_buffer.selection_bound
        = (find_next cat_bat_cat [98, 97, 116]).2.text_buffer.insert
          + (c_str [98, 97, 116]).length ∧
      (find_next cat_bat_cat [98, 97, 116]).2.text_buffer.text = cat_bat_cat.text_buffer.text) :=
  ⟨(find_next_not_found_iff_absent cat_bat_cat [100, 111, 103] (by decide)).1.1 (by decide),
   (find_next_not_found_iff_absent cat_bat_cat [100, 111, 103] (by decide)).2.1 (by decide),
   (find_next_not_found_iff_absent cat_bat_cat [98, 97, 116] (by decide)).2.2 (by decide)⟩

/-- Claim C10 fails as stated: on a document without history `on_undo` and
`on_redo` change nothing and show nothing; being `void`, they hand the caller
no result either. -/
theorem on_undo_on_redo_silent_without_history :
    gtk_text_buffer_get_can_undo document_without_history.editor.text_buffer = false ∧
    on_undo document_without_history = document_without_history ∧
    gtk_text_buffer_get_can_redo document_without_history.editor.text_buffer = false ∧
    on_redo document_without_history = document_without_history :=
  ⟨rfl, rfl, rfl, rfl⟩

/-- Claim C10, amended. Undo with an empty undo history, and redo with an empty
redo history, are silent no-ops: whenever the buffer cannot undo (respectively
redo), `on_undo` (respectively `on_redo`) returns with the editor, the files
and the dialogs shown exactly as they were. -/
theorem on_undo_on_redo_no_op_without_history (w : World) :
    (gtk_text_buffer_get_can_undo w.editor.text_buffer = false → on_undo w = w) ∧
    (gtk_text_buffer_get_can_redo w.editor.text_buffer = false → on_redo w = w) := by
  constructor
  · intro h; simp [on_undo, h]
  · intro h; simp [on_redo, h]

/-- Witness of C10 amended: the document without history. -/
theorem on_undo_on_redo_no_op_without_history_witness :
    on_undo document_without_history = document_without_history ∧
    on_redo document_without_history = document_without_history :=
  ⟨(on_undo_on_redo_no_op_without_history document_without_history).1 rfl,
   (on_undo_on_redo_no_op_without_history document_without_history).2 rfl⟩

/-- Claim C11 fails as stated: the timer fires on a modified document without
`current_filename` and, with a disk that would take the write, the callback
returns TRUE and leaves everything as it was: no save, the flag still set. -/
theorem auto_save_skips_unnamed_document :
    unnamed_unsaved_document.editor.modified = true ∧
    unnamed_unsaved_document.editor.current_filename = none ∧
    auto_save_callback WriteOutcome.ok unnamed_unsaved_document
      = (true, unnamed_unsaved_document) :=
  ⟨rfl, rfl, rfl⟩

/-- Claim C11, amended. When the timer fires, `auto_save_callback` invokes the
save (`save_file_internal` on `current_filename`, then a status message)
whenever modified is TRUE and the document has a `current_filename`; it writes
nothing and changes nothing when modified is FALSE, and likewise when the
document has no `current_filename`. -/
theorem auto_save_saves_modified_named_document (out : WriteOutcome) (w : World) :
    (∀ f, w.editor.modified = true → w.editor.current_filename = some f →
      auto_save_callback out w =
        (true, { (save_file_internal out w f).2 with
                  status_bar := gtk_statusbar_push (save_file_internal out w f).2.status_bar
                    ("Auto-saved to " ++ g_path_get_basename f) })) ∧
    (w.editor.modified = false → auto_save_callback out w = (true, w)) ∧
    (w.editor.current_filename = none → auto_save_callback out w = (true, w)) := by
  refine ⟨?_, ?_, ?_⟩
  · intro f hm hf
    simp [auto_save_callback, hm, hf]
  · intro hm
    simp [auto_save_callback, hm]
  · intro hf
    cases hm : w.editor.modified <;> simp [auto_save_callback, hm, hf]

/-- Witness of C11 amended: the document "hi" of `a.txt` with unsaved changes is
written by the save; once saved, the next firing changes nothing; the unnamed
document is left alone. -/
theorem auto_save_saves_modified_named_document_witness :
    (auto_save_callback WriteOutcome.ok unsaved_document).2.files "a.txt" = some [104, 105] ∧
    auto_save_callback WriteOutcome.ok (auto_save_callback WriteOutcome.ok unsaved_document).2
      = (true, (auto_save_callback WriteOutcome.ok unsaved_document).2) ∧
    auto_save_callback WriteOutcome.ok unnamed_unsaved_document
      = (true, unnamed_unsaved_document) :=
  ⟨by
      rw [(auto_save_saves_modified_named_document WriteOutcome.ok unsaved_document).1
        "a.txt" rfl rfl]
      decide,
   (auto_save_saves_modified_named_document WriteOutcome.ok
      (auto_save_callback WriteOutcome.ok unsaved_document).2).2.1 (by decide),
   (auto_save_saves_modified_named_document WriteOutcome.ok unnamed_unsaved_document).2.2 rfl⟩

/-- Claim C12 fails as stated: in "a", carriage return, "b" no newline precedes
the cursor at the end and three characters do, which the claim makes "Line 1,
Column 4"; the status text is "Line 2, Column 2", the carriage return being a
line end for the toolkit.  The same holds with U+2029 in its place. -/
theorem status_text_counts_other_line_ends :
    newlines_before document_with_carriage_return.editor.text_buffer.text 3 + 1 = 1 ∧
    characters (line_before_cursor document_with_carriage_return.editor.text_buffer.text 3) + 1
      = 4 ∧
    (update_status_bar document_with_carriage_return).status_bar = ["Line 2, Column 2"] ∧
    newlines_before document_with_paragraph_separator.editor.text_buffer.text 5 + 1 = 1 ∧
    characters (line_before_cursor document_with_paragraph_separator.editor.text_buffer.text 5)
      + 1 = 4 ∧
    (update_status_bar document_with_paragraph_separator).status_bar
      = ["Line 2, Column 2"] := by
  decide

/-- Claim C12, amended. The status text of `update_status_bar` is "Line L,
Column C" with the 1-based line and column of the cursor as the toolkit
counts them, so L and C are at least 1 and the cursor at offset 0 gives
"Line 1, Column 1"; in a text whose only line ends are newlines (no carriage
return, no U+2029), L is one plus the number of newlines before the cursor
and C is one plus the number of characters between the start of the line and
the cursor. -/
theorem status_text_is_one_based_line_and_column (w : World) :
    (update_status_bar w).status_bar =
      ("Line "
        ++ toString (gtk_text_iter_get_line w.editor.text_buffer.text
              w.editor.text_buffer.insert + 1)
        ++ ", Column "
        ++ toString (gtk_text_iter_get_line_offset w.editor.text_buffer.text
              w.editor.text_buffer.insert + 1))
      :: w.status_bar.tail ∧
    1 ≤ gtk_text_iter_get_line w.editor.text_buffer.text w.editor.text_buffer.insert + 1 ∧
    1 ≤ gtk_text_iter_get_line_offset w.editor.text_buffer.text w.editor.text_buffer.insert + 1 ∧
    (w.editor.text_buffer.insert = 0 →
      (update_status_bar w).status_bar = "Line 1, Column 1" :: w.status_bar.tail) ∧
    (only_newline_line_ends w.editor.text_buffer.text →
      (update_status_bar w).status_bar =
        ("Line "
          ++ toString (newlines_before w.editor.text_buffer.text w.editor.text_buffer.insert + 1)
          ++ ", Column "
          ++ toString (characters (line_before_cursor w.editor.text_buffer.text
                w.editor.text_buffer.insert) + 1))
        :: w.status_bar.tail) := by
  have hs : (update_status_bar w).status_bar =
      ("Line "
        ++ toString (gtk_text_iter_get_line w.editor.text_buffer.text
              w.editor.text_buffer.insert + 1)
        ++ ", Column "
        ++ toString (gtk_text_iter_get_line_offset w.editor.text_buffer.text
              w.editor.text_buffer.insert + 1))
      :: w.status_bar.tail := rfl
  refine ⟨hs, Nat.le_add_left _ _, Nat.le_add_left _ _, ?_, ?_⟩
  · intro h0
    rw [hs, h0]
    simp only [gtk_text_iter_get_line, gtk_text_iter_get_line_offset, iter_position,
      iter_walk_zero]
    rfl
  · intro h
    have hpos := iter_position_eq w.editor.text_buffer.text w.editor.text_buffer.insert h
    rw [hs]
    simp only [gtk_text_iter_get_line, gtk_text_iter_get_line_offset, hpos]

/-- Witness of C12 amended: in "ab", newline, "cd" the cursor before "d" is at
line 2, column 2, and the cursor at offset 0 at line 1, column 1. -/
theorem status_text_is_one_based_line_and_column_witness :
    (update_status_bar (two_line_document 4)).status_bar = ["Line 2, Column 2"] ∧
    (update_status_bar (two_line_document 0)).status_bar = ["Line 1, Column 1"] :=
  ⟨(status_text_is_one_based_line_and_column (two_line_document 4)).2.2.2.2 (by decide),
   (status_text_is_one_based_line_and_column (two_line_document 0)).2.2.2.1 rfl⟩

/-- Claim C13 (not met by the code). The buffer holds the unsaved text "hi" and
the user answers "Save".  When `fopen` fails in the save (an error dialog is
shown, `a.txt` keeps "old"), `on_new_file` still empties the buffer and clears
the flag, `on_open_file` still replaces the text by that of the chosen file,
and `on_quit` still cleans up and quits; `on_new_file` does the same when the
"Save File" chooser of an unnamed document is cancelled. -/
theorem failed_save_at_prompt_still_discards :
    unsaved_document.editor.text_buffer.text = [104, 105] ∧
    (on_new_file (save_answer_inputs WriteOutcome.open_failed) unsaved_document).editor
      = { text_buffer := buffer_of [] 0, current_filename := none, modified := false } ∧
    (on_new_file (save_answer_inputs WriteOutcome.open_failed) unsaved_document).files "a.txt"
      = some [111, 108, 100] ∧
    (on_new_file (save_answer_inputs WriteOutcome.open_failed) unsaved_document).dialogs
      = [Dialog.save_failed_error "a.txt", Dialog.save_changes_prompt] ∧
    (on_new_file (save_answer_inputs WriteOutcome.ok) unnamed_unsaved_document).editor
      = { text_buffer := buffer_of [] 0, current_filename := none, modified := false } ∧
    (on_new_file (save_answer_inputs WriteOutcome.ok) unnamed_unsaved_document).dialogs
      = [Dialog.save_chooser, Dialog.save_changes_prompt] ∧
    (on_new_file (save_answer_inputs WriteOutcome.ok) unnamed_unsaved_document).files "a.txt"
      = some [111, 108, 100] ∧
    (on_open_file (save_answer_inputs WriteOutcome.open_failed) unsaved_document).editor
      = { text_buffer := buffer_of [111, 108, 100] 3, current_filename := some "a.txt",
          modified := false } ∧
    (on_quit (save_answer_inputs WriteOutcome.open_failed) unsaved_document).main_quit = true ∧
    (on_quit (save_answer_inputs WriteOutcome.open_failed) unsaved_document).freed = true ∧
    (on_quit (save_answer_inputs WriteOutcome.open_failed) unsaved_document).files "a.txt"
      = some [111, 108, 100] := by
  decide

/-- Claim C14. `on_delete_event` returns TRUE exactly when the document is
modified and the answer to the save prompt is neither "Save" nor "Don't Save";
otherwise it returns FALSE, after `cleanup_editor`; for an unmodified document
it does so without showing any dialog. -/
theorem on_delete_event_true_iff_prompt_cancelled (inp : Inputs) (w : World) :
    ((on_delete_event inp w).1 = true ↔
      (w.editor.modified = true ∧ inp.prompt ≠ GtkResponse.yes ∧
        inp.prompt ≠ GtkResponse.no)) ∧
    ((on_delete_event inp w).1 = false → (on_delete_event inp w).2.freed = true) ∧
    (w.editor.modified = false →
      (on_delete_event inp w).1 = false ∧ (on_delete_event inp w).2.dialogs = w.dialogs) := by
  have hfst : (on_delete_event inp w).1 = (unsaved_changes_guard inp w).1 := by
    unfold on_delete_event
    cases hg : (unsaved_changes_guard inp w).1 <;> simp [hg]
  refine ⟨?_, ?_, ?_⟩
  · rw [hfst, unsaved_changes_guard_fst]
    simp [and_assoc]
  · intro h
    rw [hfst] at h
    simp [on_delete_event, h, cleanup_editor]
  · intro hm
    simp [on_delete_event, unsaved_changes_guard_unmodified inp w hm, cleanup_editor]

/-- Witness of C14: with unsaved changes "Cancel" keeps the window and "Don't
Save" lets it close; a saved document closes with no dialog shown. -/
theorem on_delete_event_true_iff_prompt_cancelled_witness :
    (on_delete_event cancel_answer_inputs unsaved_document).1 = true ∧
    (on_delete_event (open_inputs "a.txt" 3) unsaved_document).2.freed = true ∧
    ((on_delete_event cancel_answer_inputs document_without_history).1 = false ∧
      (on_delete_event cancel_answer_inputs document_without_history).2.dialogs
        = document_without_history.dialogs) :=
  ⟨(on_delete_event_true_iff_prompt_cancelled cancel_answer_inputs unsaved_document).1.2
      (by decide),
   (on_delete_event_true_iff_prompt_cancelled (open_inputs "a.txt" 3) unsaved_document).2.1
      (by decide),
   (on_delete_event_true_iff_prompt_cancelled cancel_answer_inputs
      document_without_history).2.2 (by decide)⟩

/-- Claim C15 (not met by the code). The timer fires on the modified document of
`a.txt` while the file cannot be opened for writing: `auto_save_callback`
returns TRUE, and the user is shown the error dialog of `save_file_internal`
(and then told "Auto-saved to a.txt" in the status bar, the file being
untouched and the flag still set). -/
theorem auto_save_shows_error_dialog :
    unsaved_document.dialogs = [] ∧
    (auto_save_callback WriteOutcome.open_failed unsaved_document).1 = true ∧
    (auto_save_callback WriteOutcome.open_failed unsaved_document).2.dialogs
      = [Dialog.save_failed_error "a.txt"] ∧
    (auto_save_callback WriteOutcome.open_failed unsaved_document).2.status_bar
      = ["Auto-saved to a.txt"] ∧
    (auto_save_callback WriteOutcome.open_failed unsaved_document).2.files "a.txt"
      = some [111, 108, 100] ∧
    (auto_save_callback WriteOutcome.open_failed unsaved_document).2.editor.modified = true := by
  decide

/-- Claim C16 fails as stated: with unsaved changes the user answers "Save", the
save goes well, and the "Open File" chooser is then cancelled.  The modified
flag, TRUE before the call, is FALSE after it; for the unnamed document
`current_filename`, NULL before the call, is `b.txt` after it. -/
theorem cancelled_open_after_save_differs :
    save_then_cancel_open_inputs.open_choice.response = GtkResponse.cancel ∧
    unsaved_document.editor.modified = true ∧
    (on_open_file save_then_cancel_open_inputs unsaved_document).editor.modified = false ∧
    unnamed_unsaved_document.editor.current_filename = none ∧
    (on_open_file save_then_cancel_open_inputs unnamed_unsaved_document).editor.current_filename
      = some "b.txt" := by
  decide

/-- Claim C16, amended. When the chosen file cannot be opened or the "Open File"
chooser is cancelled, `on_open_file` leaves the buffer text as it was before
the call, and `current_filename` and the modified flag as the save prompt left
them: as they were before the call whenever the document was unmodified or the
answer to the prompt was not "Save". -/
theorem failed_open_changes_nothing_after_prompt (inp : Inputs) (w : World)
    (hfail : inp.open_choice.response ≠ GtkResponse.accept ∨
      fopen_read inp.read (unsaved_changes_guard inp w).2.files inp.open_choice.filename = none) :
    (on_open_file inp w).editor.text_buffer = w.editor.text_buffer ∧
    (on_open_file inp w).editor.current_filename
      = (unsaved_changes_guard inp w).2.editor.current_filename ∧
    (on_open_file inp w).editor.modified = (unsaved_changes_guard inp w).2.editor.modified ∧
    ((w.editor.modified = false ∨ inp.prompt ≠ GtkResponse.yes) →
      (on_open_file inp w).editor = w.editor) := by
  have he := (on_open_file_not_opened inp w hfail).1
  refine ⟨?_, ?_, ?_, ?_⟩
  · rw [he, unsaved_changes_guard_text_buffer]
  · rw [he]
  · rw [he]
  · intro h
    rw [he]
    cases hm : w.editor.modified
    · rw [unsaved_changes_guard_unmodified inp w hm]
    · rcases h with h | h
      · rw [hm] at h
        exact absurd h (by simp)
      · rw [unsaved_changes_guard_not_save inp w hm h]

/-- Witness of C16 amended: the saved document "hi" is left as it is when the
chosen file `missing.txt` does not exist. -/
theorem failed_open_changes_nothing_after_prompt_witness :
    (on_open_file (open_inputs "missing.txt" 3) document_without_history).editor
      = document_without_history.editor :=
  (failed_open_changes_nothing_after_prompt (open_inputs "missing.txt" 3)
    document_without_history (Or.inr (by decide))).2.2.2 (Or.inl (by decide))

/-- Claim C17. When modified is TRUE and the answer to the save prompt is
"Cancel" (or anything but "Save" and "Don't Save"), `on_new_file`,
`on_open_file` and `on_quit` return at once: apart from the prompt having been
shown, the state is what it was, so the buffer text, `current_filename` and
the modified flag are unchanged and `on_quit` has neither cleaned up nor
quit. -/
theorem cancelled_prompt_changes_nothing (inp : Inputs) (w : World)
    (hm : w.editor.modified = true)
    (hy : inp.prompt ≠ GtkResponse.yes) (hn : inp.prompt ≠ GtkResponse.no) :
    on_new_file inp w = { w with dialogs := Dialog.save_changes_prompt :: w.dialogs } ∧
    on_open_file inp w = { w with dialogs := Dialog.save_changes_prompt :: w.dialogs } ∧
    on_quit inp w = { w with dialogs := Dialog.save_changes_prompt :: w.dialogs } ∧
    (on_new_file inp w).editor = w.editor ∧
    (on_open_file inp w).editor = w.editor ∧
    (on_quit inp w).editor = w.editor ∧
    (on_quit inp w).freed = w.freed ∧
    (on_quit inp w).main_quit = w.main_quit := by
  have hg1 : (unsaved_changes_guard inp w).1 = true := by
    rw [unsaved_changes_guard_fst]
    simp [hm, hy, hn]
  have hg2 := unsaved_changes_guard_not_save inp w hm hy
  have h1 : on_new_file inp w = { w with dialogs := Dialog.save_changes_prompt :: w.dialogs } := by
    simp [on_new_file, hg1, hg2]
  have h2 : on_open_file inp w = { w with dialogs := Dialog.save_changes_prompt :: w.dialogs } := by
    simp [on_open_file, hg1, hg2]
  have h3 : on_quit inp w = { w with dialogs := Dialog.save_changes_prompt :: w.dialogs } := by
    simp [on_quit, hg1, hg2]
  refine ⟨h1, h2, h3, ?_, ?_, ?_, ?_, ?_⟩
  · rw [h1]
  · rw [h2]
  · rw [h3]
  · rw [h3]
  · rw [h3]

/-- Witness of C17: the document with the unsaved text "hi" and the answer
"Cancel". -/
theorem cancelled_prompt_changes_nothing_witness :
    (on_new_file cancel_answer_inputs unsaved_document).editor = unsaved_document.editor ∧
    (on_open_file cancel_answer_inputs unsaved_document).editor = unsaved_document.editor ∧
    (on_quit cancel_answer_inputs unsaved_document).editor = unsaved_document.editor ∧
    (on_quit cancel_answer_inputs unsaved_document).freed = false ∧
    (on_quit cancel_answer_inputs unsaved_document).main_quit = false :=
  (cancelled_prompt_changes_nothing cancel_answer_inputs unsaved_document
    (by decide) (by decide) (by decide)).2.2.2

end TextEditorGtk
